import Mathlib

/-!
Shallow embedding of `src/main.py` of the ILovePyPdf repository: a PDF
compression driver built on the external PyPDF2 library.  The driver
`compress_pdf` validates the input path, opens the input document, compresses
every page's content streams at one of two quality levels, appends the pages
to an output document, serializes it, and computes size statistics; `main` is
the CLI entry point.

The PyPDF2 collaborator (PdfReader, PdfWriter, Page.compress_content_streams)
is not part of the repository, so its observable interface is modelled from
the spec: a parsed document is an ordered list of pages, a page records the
compression levels that were applied to it, and serialization size is an
opaque function supplied as a parameter.  Filesystem state is an association
list from paths to files; printed diagnostics are accumulated as a list of
lines.  Python float arithmetic on sizes is modelled with exact rationals;
`round(x, n)` is modelled as round-half-up on rationals (the tie-breaking
mode is irrelevant to every statement below, none of which sits on a tie).
-/

namespace ILovePyPdf

/-- Modelled from the spec: a PDF page as exposed by the PyPDF2 collaborator.
`id` identifies the page content, `compressedWith` records, in order, the
`level` argument of every `compress_content_streams` call applied to it
(`none` = the call's default), and `compressError` is `some msg` when the
collaborator's recompression of this page fails with message `msg`. -/
structure Page where
  id : Nat
  compressedWith : List (Option Nat)
  compressError : Option String
deriving Repr, DecidableEq

/-- Python exceptions that `compress_pdf` and `main` can see. -/
inductive PyErr where
  | fileNotFound (msg : String)
  | permissionError
  | pdfReadError (msg : String)
  | zeroDivisionError
  | unexpected (msg : String)
deriving Repr, DecidableEq

/-- Modelled from the spec: `Page.compress_content_streams(level)` of the
PyPDF2 collaborator.  It either fails (opaque library failure) or returns the
page with the passed `level` parameter recorded — the parameter is the
observable of the call. -/
def Page.compress_content_streams (p : Page) (level : Option Nat) :
    Except PyErr Page :=
  match p.compressError with
  | some msg => .error (.unexpected msg)
  | none => .ok { p with compressedWith := p.compressedWith ++ [level] }

instance instDecEqExcept {ε α : Type} [DecidableEq ε] [DecidableEq α] :
    DecidableEq (Except ε α) := fun x y =>
  match x, y with
  | .ok a, .ok b =>
    if h : a = b then .isTrue (by rw [h]) else .isFalse (by simp [h])
  | .error a, .error b =>
    if h : a = b then .isTrue (by rw [h]) else .isFalse (by simp [h])
  | .ok _, .error _ => .isFalse (by simp)
  | .error _, .ok _ => .isFalse (by simp)

/-- A file on disk: its byte size, and what `PdfReader` sees when opening it —
either a parsed list of pages or a parse failure with its message (modelled
from the spec: parsing is delegated to the collaborator). -/
structure PdfFile where
  size : Nat
  doc : Except String (List Page)
deriving Repr, DecidableEq

/-- The filesystem: an association list from paths to files. -/
abbrev FS := List (String × PdfFile)

def fsLookup : FS → String → Option PdfFile
  | [], _ => none
  | (q, g) :: rest, p => if q = p then some g else fsLookup rest p

/-- Writing a file replaces any existing entry at the path (full overwrite). -/
def fsWrite : FS → String → PdfFile → FS
  | [], p, f => [(p, f)]
  | (q, g) :: rest, p, f =>
    if q = p then (p, f) :: rest else (q, g) :: fsWrite rest p f

/-- `os.path.getsize`, on a path known to exist (0 on the dead branch). -/
def getsize (fs : FS) (p : String) : Nat :=
  match fsLookup fs p with
  | some f => f.size
  | none => 0

/-- World state: the filesystem, plus which paths the process may not open
for reading resp. writing (PermissionError on the corresponding `open`). -/
structure St where
  fs : FS
  readDenied : List String
  writeDenied : List String
deriving Repr, DecidableEq

/-- Python `round(q, d)` on exact rationals (round half up; see header). -/
def roundTo (d : Nat) (q : ℚ) : ℚ :=
  (⌊q * 10 ^ d + 1 / 2⌋ : ℚ) / 10 ^ d

/-- The statistics dictionary returned by `compress_pdf`.  Wall-clock
`processing_time` has no pure counterpart and is fixed at 0. -/
structure CompressionStats where
  original_size : ℚ
  compressed_size : ℚ
  reduction_percent : ℚ
  processing_time : ℚ
deriving Repr, DecidableEq

/-- `str(e)` of an exception, as Python's f-strings render it. -/
def errStr : PyErr → String
  | .fileNotFound m => m
  | .permissionError => "Permission denied"
  | .pdfReadError m => m
  | .zeroDivisionError => "float division by zero"
  | .unexpected m => m

/-- The diagnostic line each `except` clause of `compress_pdf` prints before
re-raising (lines 106-114 of `src/main.py`). -/
def errMsg : PyErr → String
  | .fileNotFound m => s!"Error: {m}"
  | .permissionError => "Error: Permission denied when trying to read/write files"
  | e => s!"An unexpected error occurred: {(errStr e)}"

/-- The `level` argument `compress_pdf` passes to
`compress_content_streams`: omitted (default) when `high_quality`, `level=9`
(maximum) otherwise (lines 65-70 of `src/main.py`). -/
def levelFor (high_quality : Bool) : Option Nat :=
  if high_quality then none else some 9

/-- The successful result of recompressing one page at quality
`high_quality`: the chosen level is appended to the page's record. -/
def pageCompress (high_quality : Bool) (p : Page) : Page :=
  { p with compressedWith := p.compressedWith ++ [levelFor high_quality] }

/-- The page loop of `compress_pdf` (lines 63-76): compress each page at the
selected level, collect the compressed pages in order, and print one progress
line per completed page.  A page failure aborts the loop; the progress lines
already printed remain. -/
def compressPages (high_quality : Bool) :
    List Page → Nat → Nat → Except PyErr (List Page) × List String
  | [], _, _ => (.ok [], [])
  | p :: rest, page_number, total_pages =>
    match p.compress_content_streams (levelFor high_quality) with
    | .error e => (.error e, [])
    | .ok p2 =>
      match compressPages high_quality rest (page_number + 1) total_pages with
      | (.error e, ls) =>
        (.error e, s!"Compressed page {page_number}/{total_pages}" :: ls)
      | (.ok out, ls) =>
        (.ok (p2 :: out), s!"Compressed page {page_number}/{total_pages}" :: ls)

/-- The success summary printed after the stats are computed (lines 98-102). -/
def successLog (stats : CompressionStats) : List String :=
  let o := stats.original_size
  let c := stats.compressed_size
  let r := stats.reduction_percent
  let t := stats.processing_time
  ["\nCompression completed successfully!",
   s!"Original size: {o} KB",
   s!"Compressed size: {c} KB",
   s!"Reduction: {r}%",
   s!"Processing time: {t} seconds"]

/-- The statistics computed at lines 84-95 of `src/main.py` from the two
on-disk byte sizes `a` (input) and `b` (output), re-read after the write:
sizes in binary KB rounded to 2 decimals, reduction percentage computed from
the unrounded KB values and rounded to 1 decimal. -/
def mkStats (a b : Nat) : CompressionStats :=
  let original_size : ℚ := (a : ℚ) / 1024
  let compressed_size : ℚ := (b : ℚ) / 1024
  let reduction : ℚ := ((original_size - compressed_size) / original_size) * 100
  { original_size := roundTo 2 original_size
    compressed_size := roundTo 2 compressed_size
    reduction_percent := roundTo 1 reduction
    processing_time := 0 }

/-- The `try` body of `compress_pdf` (lines 46-104 of `src/main.py`),
parameterized by the collaborator's opaque serialization size `writeSize`.
Returns the result, the final state, and the printed lines in order.
Python's float division raises `ZeroDivisionError` exactly when the divisor
`original_size = getsize(input_file)/1024` is zero, i.e. exactly when the
re-read byte size is zero, so the guard tests that byte size. -/
def compressBody (writeSize : List Page → Nat) (st : St)
    (input_file output_file : String) (high_quality : Bool) :
    Except PyErr CompressionStats × St × List String :=
  match fsLookup st.fs input_file with
  | none =>
    (.error (.fileNotFound s!"Input file not found: {input_file}"), st, [])
  | some f =>
    if input_file ∈ st.readDenied then (.error .permissionError, st, [])
    else
      match f.doc with
      | .error m => (.error (.pdfReadError m), st, [])
      | .ok pages =>
        let total_pages := pages.length
        let log0 := [s!"Processing {total_pages} pages..."]
        match compressPages high_quality pages 1 total_pages with
        | (.error e, ls) => (.error e, st, log0 ++ ls)
        | (.ok newPages, ls) =>
          let log1 := log0 ++ ls ++ ["Saving compressed file..."]
          if output_file ∈ st.writeDenied then
            (.error .permissionError, st, log1)
          else
            let outFile : PdfFile :=
              { size := writeSize newPages, doc := .ok newPages }
            let fs2 := fsWrite st.fs output_file outFile
            let st2 : St := { st with fs := fs2 }
            if getsize fs2 input_file = 0 then
              (.error .zeroDivisionError, st2, log1)
            else
              let stats : CompressionStats :=
                mkStats (getsize fs2 input_file) (getsize fs2 output_file)
              (.ok stats, st2, log1 ++ successLog stats)

/-- `compress_pdf` (lines 24-114): the `try` body wrapped by the `except`
clauses, each of which prints a diagnostic and re-raises the same
exception. -/
def compress_pdf (writeSize : List Page → Nat) (st : St)
    (input_file output_file : String) (high_quality : Bool := true) :
    Except PyErr CompressionStats × St × List String :=
  match compressBody writeSize st input_file output_file high_quality with
  | (.ok stats, st2, ls) => (.ok stats, st2, ls)
  | (.error e, st2, ls) => (.error e, st2, ls ++ [errMsg e])

/-- `main` (lines 116-134): runs `compress_pdf` on the example paths with the
default quality, returns exit status 0 on success and 1 on any exception,
printing a final diagnostic. -/
def main (writeSize : List Page → Nat) (st : St) :
    Nat × St × List String :=
  match compress_pdf writeSize st "example.pdf" "example_compressed.pdf" with
  | (.ok _, st2, ls) => (0, st2, ls)
  | (.error e, st2, ls) =>
    (1, st2, ls ++ [s!"Compression failed: {(errStr e)}"])

/-- The file a successful run serializes to `output_path`: every input page
compressed at the selected level, in order, with the collaborator's
serialization size.  Determined by the input pages alone — independent of
any previous content of the output path. -/
def outFileOf (writeSize : List Page → Nat) (high_quality : Bool)
    (pages : List Page) : PdfFile :=
  { size := writeSize (pages.map (pageCompress high_quality)),
    doc := .ok (pages.map (pageCompress high_quality)) }

/-! Concrete fixtures used by the witness and counterexample theorems. -/

def page1 : Page := { id := 1, compressedWith := [], compressError := none }

def page2 : Page := { id := 2, compressedWith := [], compressError := none }

/-- A 1024-byte, two-page input file. -/
def exFile : PdfFile := { size := 1024, doc := .ok [page1, page2] }

/-- A pre-existing output file with stale content. -/
def oldFile : PdfFile := { size := 9999, doc := .error "stale content" }

/-- A zero-byte file; PyPDF2's `PdfReader` fails on an empty file. -/
def emptyFile : PdfFile := { size := 0, doc := .error "Cannot read an empty file" }

def stEmpty : St := { fs := [], readDenied := [], writeDenied := [] }

def st0 : St := { fs := [("a.pdf", exFile)], readDenied := [], writeDenied := [] }

def st1 : St :=
  { fs := [("a.pdf", exFile), ("out.pdf", oldFile)],
    readDenied := [], writeDenied := [] }

def stZ : St := { fs := [("z.pdf", emptyFile)], readDenied := [], writeDenied := [] }

/-- A state whose (parseable) input file may not be opened for reading. -/
def stRD : St :=
  { fs := [("a.pdf", exFile)], readDenied := ["a.pdf"], writeDenied := [] }

/-- A serializer whose output always occupies 517 bytes. -/
def ws517 : List Page → Nat := fun _ => 517

/-! Helper lemmas about the filesystem and the page loop. -/

theorem fsLookup_fsWrite_self (fs : FS) (p : String) (f : PdfFile) :
    fsLookup (fsWrite fs p f) p = some f := by
  induction fs with
  | nil => simp [fsWrite, fsLookup]
  | cons e rest ih =>
    obtain ⟨q, g⟩ := e
    by_cases h : q = p <;> simp [fsWrite, fsLookup, h, ih]

theorem fsLookup_fsWrite_ne (fs : FS) (p q : String) (f : PdfFile)
    (h : p ≠ q) : fsLookup (fsWrite fs p f) q = fsLookup fs q := by
  induction fs with
  | nil => simp [fsWrite, fsLookup, h]
  | cons e rest ih =>
    obtain ⟨r, g⟩ := e
    by_cases hr : r = p
    · subst hr; simp [fsWrite, fsLookup, h]
    · simp [fsWrite, fsLookup, hr, ih]

theorem compress_content_streams_ok (p p2 : Page) (lv : Option Nat)
    (h : p.compress_content_streams lv = .ok p2) :
    p2 = { p with compressedWith := p.compressedWith ++ [lv] } := by
  unfold Page.compress_content_streams at h
  cases hp : p.compressError with
  | some m => rw [hp] at h; simp at h
  | none => rw [hp] at h; simp at h; exact h.symm

theorem compressPages_ok (hq : Bool) :
    ∀ (ps : List Page) (n t : Nat) (out : List Page) (ls : List String),
      compressPages hq ps n t = (.ok out, ls) →
      out = ps.map (pageCompress hq) := by
  intro ps
  induction ps with
  | nil =>
    intro n t out ls h
    simp [compressPages] at h
    simp [h.1]
  | cons p rest ih =>
    intro n t out ls h
    simp only [compressPages] at h
    cases hc : p.compress_content_streams (levelFor hq) with
    | error e => rw [hc] at h; simp at h
    | ok p2 =>
      rw [hc] at h
      cases hr : compressPages hq rest (n + 1) t with
      | mk r ls2 =>
        rw [hr] at h
        cases r with
        | error e => simp at h
        | ok out2 =>
          simp at h
          obtain ⟨h1, -⟩ := h
          have hout2 := ih (n + 1) t out2 ls2 (by rw [hr])
          have hp2 := compress_content_streams_ok p p2 (levelFor hq) hc
          simp [List.map, ← h1, hout2, hp2, pageCompress]

theorem compress_pdf_ok_iff (ws : List Page → Nat) (st : St) (i o : String)
    (hq : Bool) (stats : CompressionStats) (st2 : St) (ls : List String) :
    compress_pdf ws st i o hq = (.ok stats, st2, ls) ↔
    compressBody ws st i o hq = (.ok stats, st2, ls) := by
  unfold compress_pdf
  cases h : compressBody ws st i o hq with
  | mk r rest =>
    obtain ⟨st3, ls3⟩ := rest
    cases r <;> simp

/-- Inversion of a successful run of the `try` body: the input parsed to
`pages`, the output file now holds every page compressed at the selected
level, and the statistics come from the two re-read on-disk sizes. -/
theorem compressBody_ok_inv (ws : List Page → Nat) (st : St) (i o : String)
    (hq : Bool) (stats : CompressionStats) (st2 : St) (ls : List String)
    (hrun : compressBody ws st i o hq = (.ok stats, st2, ls)) :
    ∃ f pages, fsLookup st.fs i = some f ∧ f.doc = .ok pages ∧
      st2 = { st with fs := fsWrite st.fs o (outFileOf ws hq pages) } ∧
      getsize st2.fs i ≠ 0 ∧
      stats = mkStats (getsize st2.fs i) (getsize st2.fs o) := by
  unfold compressBody at hrun
  cases hf : fsLookup st.fs i with
  | none => simp [hf] at hrun
  | some f =>
    by_cases hrd : i ∈ st.readDenied
    · simp [hf, hrd] at hrun
    · cases hd : f.doc with
      | error m => simp [hf, hrd, hd] at hrun
      | ok pages =>
        cases hcp : compressPages hq pages 1 pages.length with
        | mk r ls2 =>
          cases r with
          | error e => simp [hf, hrd, hd, hcp] at hrun
          | ok newPages =>
            have hnew : newPages = pages.map (pageCompress hq) :=
              compressPages_ok hq pages 1 pages.length newPages ls2 hcp
            by_cases hwd : o ∈ st.writeDenied
            · simp [hf, hrd, hd, hcp, hwd] at hrun
            · by_cases hz : getsize
                  (fsWrite st.fs o { size := ws newPages, doc := .ok newPages }) i = 0
              · simp [hf, hrd, hd, hcp, hwd, hz] at hrun
              · simp [hf, hrd, hd, hcp, hwd, hz] at hrun
                obtain ⟨h1, h2, h3⟩ := hrun
                subst hnew
                refine ⟨f, pages, rfl, hd, h2.symm, ?_, ?_⟩
                · rw [← h2]; exact hz
                · rw [← h1, ← h2]

/-- Every run either leaves the filesystem untouched or performs exactly one
write, at `output_file`. -/
theorem compress_pdf_fs_shape (ws : List Page → Nat) (st : St) (i o : String)
    (hq : Bool) :
    (compress_pdf ws st i o hq).2.1.fs = st.fs ∨
    ∃ g, (compress_pdf ws st i o hq).2.1.fs = fsWrite st.fs o g := by
  unfold compress_pdf compressBody
  cases hf : fsLookup st.fs i with
  | none => simp
  | some f =>
    by_cases hrd : i ∈ st.readDenied
    · simp [hrd]
    · cases hd : f.doc with
      | error m => simp [hrd, hd]
      | ok pages =>
        cases hcp : compressPages hq pages 1 pages.length with
        | mk r ls2 =>
          cases r with
          | error e => simp [hrd, hd, hcp]
          | ok newPages =>
            by_cases hwd : o ∈ st.writeDenied
            · simp [hrd, hd, hcp, hwd]
            · by_cases hz : getsize
                  (fsWrite st.fs o { size := ws newPages, doc := .ok newPages }) i = 0
              · simp [hrd, hd, hcp, hwd, hz]
              · simp [hrd, hd, hcp, hwd, hz]

/-- C3: for every `input_path` that does not exist, `compress_pdf` fails with
the NotFound condition before any library call or other work: the returned
state is the initial state unchanged (so `output_path` is neither created nor
modified) and the only line printed is the NotFound diagnostic — no
processing output precedes it. -/
theorem compress_pdf_missing_input (ws : List Page → Nat) (st : St)
    (i o : String) (hq : Bool) (h : fsLookup st.fs i = none) :
    compress_pdf ws st i o hq =
      (.error (.fileNotFound s!"Input file not found: {i}"), st,
       [errMsg (.fileNotFound s!"Input file not found: {i}")]) := by
  simp [compress_pdf, compressBody, h]

theorem compress_pdf_missing_input_witness :
    compress_pdf ws517 stEmpty "missing.pdf" "out.pdf" true =
      (.error (.fileNotFound "Input file not found: missing.pdf"), stEmpty,
       ["Error: Input file not found: missing.pdf"]) :=
  compress_pdf_missing_input ws517 stEmpty "missing.pdf" "out.pdf" true rfl

/-- C6: every failure raised inside the `try` body of `compress_pdf` —
not-found, permission, or any other exception — is re-raised unchanged to
the caller, with its diagnostic line appended to the printed output; no
failure is suppressed, downgraded or retried. -/
theorem compress_pdf_reraises (ws : List Page → Nat) (st : St) (i o : String)
    (hq : Bool) (e : PyErr) (st2 : St) (ls : List String)
    (h : compressBody ws st i o hq = (.error e, st2, ls)) :
    compress_pdf ws st i o hq = (.error e, st2, ls ++ [errMsg e]) := by
  simp [compress_pdf, h]

theorem compress_pdf_reraises_witness :
    compress_pdf ws517 stEmpty "gone.pdf" "out.pdf" false =
      (.error (.fileNotFound "Input file not found: gone.pdf"), stEmpty,
       [] ++ [errMsg (.fileNotFound "Input file not found: gone.pdf")]) :=
  compress_pdf_reraises ws517 stEmpty "gone.pdf" "out.pdf" false
    (.fileNotFound "Input file not found: gone.pdf") stEmpty [] rfl

/-- C10: a failure during input validation (missing file), document opening
(read permission denied or unparseable input), or per-page compression
occurs before the output file is opened for writing: the run fails and the
filesystem — in particular `output_path` — is exactly the initial one. -/
theorem compress_pdf_early_failure_no_write (ws : List Page → Nat) (st : St)
    (i o : String) (hq : Bool)
    (h : fsLookup st.fs i = none ∨
         (∃ f, fsLookup st.fs i = some f ∧ i ∈ st.readDenied) ∨
         (∃ f m, fsLookup st.fs i = some f ∧ f.doc = .error m) ∨
         (∃ f pages e ls2, fsLookup st.fs i = some f ∧ f.doc = .ok pages ∧
            compressPages hq pages 1 pages.length = (.error e, ls2))) :
    ∃ e, (compress_pdf ws st i o hq).1 = .error e ∧
      (compress_pdf ws st i o hq).2.1 = st := by
  rcases h with h | ⟨f, hf, hrd⟩ | ⟨f, m, hf, hd⟩ | ⟨f, pages, e, ls2, hf, hd, hcp⟩
  · exact ⟨.fileNotFound s!"Input file not found: {i}",
      by simp [compress_pdf, compressBody, h], by
      simp [compress_pdf, compressBody, h]⟩
  · exact ⟨.permissionError, by simp [compress_pdf, compressBody, hf, hrd], by
      simp [compress_pdf, compressBody, hf, hrd]⟩
  · by_cases hrd : i ∈ st.readDenied
    · exact ⟨.permissionError, by simp [compress_pdf, compressBody, hf, hrd], by
        simp [compress_pdf, compressBody, hf, hrd]⟩
    · exact ⟨.pdfReadError m, by simp [compress_pdf, compressBody, hf, hrd, hd], by
        simp [compress_pdf, compressBody, hf, hrd, hd]⟩
  · by_cases hrd : i ∈ st.readDenied
    · exact ⟨.permissionError, by simp [compress_pdf, compressBody, hf, hrd], by
        simp [compress_pdf, compressBody, hf, hrd]⟩
    · exact ⟨e, by simp [compress_pdf, compressBody, hf, hrd, hd, hcp], by
        simp [compress_pdf, compressBody, hf, hrd, hd, hcp]⟩

theorem compress_pdf_early_failure_no_write_witness :
    ∃ e, (compress_pdf ws517 stRD "a.pdf" "o.pdf" true).1 = .error e ∧
      (compress_pdf ws517 stRD "a.pdf" "o.pdf" true).2.1 = stRD :=
  compress_pdf_early_failure_no_write ws517 stRD "a.pdf" "o.pdf" true
    (Or.inr (Or.inl ⟨exFile, rfl, by decide⟩))

/-- C7: the entry point returns exit status 0 when `compress_pdf` succeeds,
and on every propagated failure prints a final diagnostic line and returns
exit status 1. -/
theorem main_exit_status (ws : List Page → Nat) (st : St) :
    (∀ stats st2 ls,
        compress_pdf ws st "example.pdf" "example_compressed.pdf" =
          (.ok stats, st2, ls) →
        main ws st = (0, st2, ls)) ∧
    (∀ e st2 ls,
        compress_pdf ws st "example.pdf" "example_compressed.pdf" =
          (.error e, st2, ls) →
        main ws st = (1, st2, ls ++ [s!"Compression failed: {(errStr e)}"])) := by
  constructor
  · intro stats st2 ls h
    simp [main, h]
  · intro e st2 ls h
    simp [main, h]

theorem main_exit_status_witness :
    main ws517 stEmpty =
      (1, stEmpty, ["Error: Input file not found: example.pdf"] ++
        ["Compression failed: Input file not found: example.pdf"]) :=
  (main_exit_status ws517 stEmpty).2
    (.fileNotFound "Input file not found: example.pdf") stEmpty
    ["Error: Input file not found: example.pdf"] rfl

/-- C1: on success, every page of the input document is appended to the
output document in file order: the output document is exactly the input's
page list mapped through the per-page recompression — same page count,
pointwise the same pages in the same order (ids preserved), none dropped. -/
theorem compress_pdf_preserves_pages (ws : List Page → Nat) (st : St)
    (i o : String) (hq : Bool) (stats : CompressionStats) (st2 : St)
    (ls : List String)
    (hrun : compress_pdf ws st i o hq = (.ok stats, st2, ls)) :
    ∃ f pages g, fsLookup st.fs i = some f ∧ f.doc = .ok pages ∧
      fsLookup st2.fs o = some g ∧
      g.doc = .ok (pages.map (pageCompress hq)) ∧
      (pages.map (pageCompress hq)).length = pages.length ∧
      (pages.map (pageCompress hq)).map Page.id = pages.map Page.id := by
  obtain ⟨f, pages, hf, hd, hst2, -, -⟩ :=
    compressBody_ok_inv ws st i o hq stats st2 ls
      ((compress_pdf_ok_iff ws st i o hq stats st2 ls).1 hrun)
  refine ⟨f, pages, outFileOf ws hq pages, hf, hd, ?_, rfl, by simp, ?_⟩
  · rw [hst2]
    exact fsLookup_fsWrite_self st.fs o (outFileOf ws hq pages)
  · simp [List.map_map, Function.comp_def, pageCompress]

theorem compress_pdf_preserves_pages_witness :
    ∃ f pages g, fsLookup st0.fs "a.pdf" = some f ∧ f.doc = .ok pages ∧
      fsLookup (compress_pdf ws517 st0 "a.pdf" "out.pdf" true).2.1.fs
        "out.pdf" = some g ∧
      g.doc = .ok (pages.map (pageCompress true)) ∧
      (pages.map (pageCompress true)).length = pages.length ∧
      (pages.map (pageCompress true)).map Page.id = pages.map Page.id :=
  compress_pdf_preserves_pages ws517 st0 "a.pdf" "out.pdf" true
    (mkStats 1024 517)
    (compress_pdf ws517 st0 "a.pdf" "out.pdf" true).2.1
    (compress_pdf ws517 st0 "a.pdf" "out.pdf" true).2.2 rfl

/-- C2: on success every page went through the per-page recompression with
the parameter selected from `high_quality`: each output page records the
extra `levelFor hq` entry, `levelFor true` is the default call (no `level`
argument) while `levelFor false` is the maximum-compression `level=9`, the
two parameters are observably distinct, and omitting the `high_quality`
argument is the same invocation as passing `true` (the default). -/
theorem compress_pdf_quality_parameter (ws : List Page → Nat) (st : St)
    (i o : String) (hq : Bool) (stats : CompressionStats) (st2 : St)
    (ls : List String) (f : PdfFile) (pages : List Page)
    (hf : fsLookup st.fs i = some f) (hd : f.doc = .ok pages)
    (hrun : compress_pdf ws st i o hq = (.ok stats, st2, ls)) :
    (∃ g, fsLookup st2.fs o = some g ∧
       g.doc = .ok (pages.map (pageCompress hq)) ∧
       ∀ p ∈ pages, (pageCompress hq p).compressedWith =
         p.compressedWith ++ [levelFor hq]) ∧
    levelFor true = none ∧ levelFor false = some 9 ∧
    levelFor true ≠ levelFor false ∧
    compress_pdf ws st i o = compress_pdf ws st i o true := by
  obtain ⟨f2, pages2, hf2, hd2, hst2, -, -⟩ :=
    compressBody_ok_inv ws st i o hq stats st2 ls
      ((compress_pdf_ok_iff ws st i o hq stats st2 ls).1 hrun)
  rw [hf] at hf2
  injection hf2 with hf2
  subst hf2
  rw [hd] at hd2
  injection hd2 with hd2
  subst hd2
  refine ⟨⟨outFileOf ws hq pages, ?_, rfl, ?_⟩, rfl, rfl, by simp [levelFor], rfl⟩
  · rw [hst2]
    exact fsLookup_fsWrite_self st.fs o (outFileOf ws hq pages)
  · intro p _
    rfl

theorem compress_pdf_quality_parameter_witness :
    (∃ g, fsLookup (compress_pdf ws517 st0 "a.pdf" "out.pdf" true).2.1.fs
        "out.pdf" = some g ∧
       g.doc = .ok ([page1, page2].map (pageCompress true)) ∧
       ∀ p ∈ [page1, page2], (pageCompress true p).compressedWith =
         p.compressedWith ++ [levelFor true]) ∧
    levelFor true = none ∧ levelFor false = some 9 ∧
    levelFor true ≠ levelFor false ∧
    compress_pdf ws517 st0 "a.pdf" "out.pdf" =
      compress_pdf ws517 st0 "a.pdf" "out.pdf" true :=
  compress_pdf_quality_parameter ws517 st0 "a.pdf" "out.pdf" true
    (mkStats 1024 517)
    (compress_pdf ws517 st0 "a.pdf" "out.pdf" true).2.1
    (compress_pdf ws517 st0 "a.pdf" "out.pdf" true).2.2
    exFile [page1, page2] rfl rfl rfl

/-- C8: when `output_path` already holds a file, a successful run replaces
its content completely: afterwards the path holds exactly the freshly
serialized document, which is determined by the input pages and the
serializer alone — nothing of the previous content is retained. -/
theorem compress_pdf_overwrites_output (ws : List Page → Nat) (st : St)
    (i o : String) (hq : Bool) (stats : CompressionStats) (st2 : St)
    (ls : List String) (g0 : PdfFile)
    (hold : fsLookup st.fs o = some g0)
    (hrun : compress_pdf ws st i o hq = (.ok stats, st2, ls)) :
    ∃ f pages, fsLookup st.fs i = some f ∧ f.doc = .ok pages ∧
      fsLookup st2.fs o = some (outFileOf ws hq pages) := by
  obtain ⟨f, pages, hf, hd, hst2, -, -⟩ :=
    compressBody_ok_inv ws st i o hq stats st2 ls
      ((compress_pdf_ok_iff ws st i o hq stats st2 ls).1 hrun)
  refine ⟨f, pages, hf, hd, ?_⟩
  rw [hst2]
  exact fsLookup_fsWrite_self st.fs o (outFileOf ws hq pages)

theorem compress_pdf_overwrites_output_witness :
    ∃ f pages, fsLookup st1.fs "a.pdf" = some f ∧ f.doc = .ok pages ∧
      fsLookup (compress_pdf ws517 st1 "a.pdf" "out.pdf" false).2.1.fs
        "out.pdf" = some (outFileOf ws517 false pages) :=
  compress_pdf_overwrites_output ws517 st1 "a.pdf" "out.pdf" false
    (mkStats 1024 517)
    (compress_pdf ws517 st1 "a.pdf" "out.pdf" false).2.1
    (compress_pdf ws517 st1 "a.pdf" "out.pdf" false).2.2 oldFile rfl rfl

/-- C9 (amended): provided `output_path` differs from `input_path`, the file
at `input_path` is never written or modified: whatever the outcome of the
run, the filesystem entry at `input_path` afterwards is exactly the entry
before it.  (When the two paths are equal, the serialization step overwrites
the input — see the counterexample.) -/
theorem compress_pdf_input_unmodified (ws : List Page → Nat) (st : St)
    (i o : String) (hq : Bool) (hne : o ≠ i) :
    fsLookup (compress_pdf ws st i o hq).2.1.fs i = fsLookup st.fs i := by
  rcases compress_pdf_fs_shape ws st i o hq with h | ⟨g, h⟩
  · rw [h]
  · rw [h]
    exact fsLookup_fsWrite_ne st.fs o i g hne

theorem compress_pdf_input_unmodified_witness :
    fsLookup (compress_pdf ws517 st0 "a.pdf" "out.pdf" true).2.1.fs "a.pdf" =
      fsLookup st0.fs "a.pdf" :=
  compress_pdf_input_unmodified ws517 st0 "a.pdf" "out.pdf" true (by decide)

/-- C9 counterexample: with `output_path` equal to `input_path`, the
serialization step overwrites the input file.  On the 1024-byte two-page
fixture the aliased run succeeds, and afterwards the entry at `input_path`
differs from the one before the run (517 bytes, recompressed pages). -/
theorem compress_pdf_aliased_input_modified :
    (compress_pdf ws517 st0 "a.pdf" "a.pdf" true).1 = .ok (mkStats 517 517) ∧
    fsLookup (compress_pdf ws517 st0 "a.pdf" "a.pdf" true).2.1.fs "a.pdf" ≠
      fsLookup st0.fs "a.pdf" := by
  refine ⟨rfl, ?_⟩
  decide

/-- C4 counterexample: at on-disk sizes 1024 bytes (input) and 517 bytes
(output) the driver returns `reduction_percent = 49.5`, computed from the
unrounded KB values, while the claim's formula applied to the rounded KB
fields of the returned record (1.0 KB and 0.5 KB) yields 50.0. -/
theorem compress_pdf_stats_rounded_formula_fails :
    (compress_pdf ws517 st0 "a.pdf" "out.pdf" true).1 =
      .ok (mkStats 1024 517) ∧
    (mkStats 1024 517).original_size = 1 ∧
    (mkStats 1024 517).compressed_size = 1 / 2 ∧
    (mkStats 1024 517).reduction_percent = 99 / 2 ∧
    (mkStats 1024 517).reduction_percent ≠
      roundTo 1 (((mkStats 1024 517).original_size -
        (mkStats 1024 517).compressed_size) /
        (mkStats 1024 517).original_size * 100) := by
  refine ⟨rfl, ?_, ?_, ?_, ?_⟩ <;> norm_num [mkStats, roundTo]

/-- C4 (amended): on success the returned record holds the two on-disk sizes
re-read after the write, as bytes/1024 rounded to 2 decimals, and
`reduction_percent` equals `(orig_kb - comp_kb) / orig_kb * 100` rounded to
1 decimal where `orig_kb` and `comp_kb` are the UNROUNDED KB values
(equivalently, the percentage is computed from the raw byte sizes); it is
not computed from the rounded KB fields stored in the record. -/
theorem compress_pdf_stats_formula (ws : List Page → Nat) (st : St)
    (i o : String) (hq : Bool) (stats : CompressionStats) (st2 : St)
    (ls : List String)
    (hrun : compress_pdf ws st i o hq = (.ok stats, st2, ls)) :
    getsize st2.fs i ≠ 0 ∧
    stats.original_size = roundTo 2 ((getsize st2.fs i : ℚ) / 1024) ∧
    stats.compressed_size = roundTo 2 ((getsize st2.fs o : ℚ) / 1024) ∧
    stats.reduction_percent =
      roundTo 1 ((((getsize st2.fs i : ℚ) / 1024 -
        (getsize st2.fs o : ℚ) / 1024) /
        ((getsize st2.fs i : ℚ) / 1024)) * 100) ∧
    stats.processing_time = 0 := by
  obtain ⟨f, pages, -, -, -, hz, hstats⟩ :=
    compressBody_ok_inv ws st i o hq stats st2 ls
      ((compress_pdf_ok_iff ws st i o hq stats st2 ls).1 hrun)
  subst hstats
  exact ⟨hz, rfl, rfl, rfl, rfl⟩

theorem compress_pdf_stats_formula_witness :
    getsize (compress_pdf ws517 st0 "a.pdf" "out.pdf" true).2.1.fs "a.pdf" ≠ 0 ∧
    (mkStats 1024 517).original_size =
      roundTo 2 ((getsize (compress_pdf ws517 st0 "a.pdf" "out.pdf" true).2.1.fs
        "a.pdf" : ℚ) / 1024) ∧
    (mkStats 1024 517).compressed_size =
      roundTo 2 ((getsize (compress_pdf ws517 st0 "a.pdf" "out.pdf" true).2.1.fs
        "out.pdf" : ℚ) / 1024) ∧
    (mkStats 1024 517).reduction_percent =
      roundTo 1 ((((getsize (compress_pdf ws517 st0 "a.pdf" "out.pdf" true).2.1.fs
        "a.pdf" : ℚ) / 1024 -
        (getsize (compress_pdf ws517 st0 "a.pdf" "out.pdf" true).2.1.fs
        "out.pdf" : ℚ) / 1024) /
        ((getsize (compress_pdf ws517 st0 "a.pdf" "out.pdf" true).2.1.fs
        "a.pdf" : ℚ) / 1024)) * 100) ∧
    (mkStats 1024 517).processing_time = 0 :=
  compress_pdf_stats_formula ws517 st0 "a.pdf" "out.pdf" true
    (mkStats 1024 517)
    (compress_pdf ws517 st0 "a.pdf" "out.pdf" true).2.1
    (compress_pdf ws517 st0 "a.pdf" "out.pdf" true).2.2 rfl

/-- C5: a zero-byte input file is not a parseable PDF — PyPDF2's reader
fails on an empty file, which the hypothesis `hd` records — so
`compress_pdf` surfaces a defined error to the caller: the run fails with
the read error (or a permission error), never with the division-by-zero of
the statistics step, and the filesystem is untouched. -/
theorem compress_pdf_zero_byte_input (ws : List Page → Nat) (st : St)
    (i o : String) (hq : Bool) (f : PdfFile) (m : String)
    (hf : fsLookup st.fs i = some f) (hsize : f.size = 0)
    (hd : f.doc = .error m) :
    ∃ e, (compress_pdf ws st i o hq).1 = .error e ∧
      e ≠ .zeroDivisionError ∧
      (compress_pdf ws st i o hq).2.1 = st := by
  by_cases hrd : i ∈ st.readDenied
  · exact ⟨.permissionError, by simp [compress_pdf, compressBody, hf, hrd],
      by simp, by simp [compress_pdf, compressBody, hf, hrd]⟩
  · exact ⟨.pdfReadError m, by simp [compress_pdf, compressBody, hf, hrd, hd],
      by simp, by simp [compress_pdf, compressBody, hf, hrd, hd]⟩

theorem compress_pdf_zero_byte_input_witness :
    ∃ e, (compress_pdf ws517 stZ "z.pdf" "out.pdf" true).1 = .error e ∧
      e ≠ .zeroDivisionError ∧
      (compress_pdf ws517 stZ "z.pdf" "out.pdf" true).2.1 = stZ :=
  compress_pdf_zero_byte_input ws517 stZ "z.pdf" "out.pdf" true emptyFile
    "Cannot read an empty file" rfl rfl rfl

end ILovePyPdf
